import Mathlib

/-!
Verification of the PowerApps solution exporter (src/solution_exporter.py) against its
specification. The Python functions are shallowly embedded: strings are Lean strings,
subprocess results are explicit records, the keyboard and filesystem interactions of a
run are collected into script records, and each Python function on those inputs becomes
a computable Lean function. Line references in doc comments point into
src/solution_exporter.py.
-/

namespace SolutionExporter

/-- ASCII digit character for a digit value below ten. -/
def digitChar (n : Nat) : Char := Char.ofNat (48 + n)

/-- Python str.strip: remove leading and trailing whitespace. -/
def pyStrip (s : String) : String :=
  String.mk (((s.data.dropWhile Char.isWhitespace).reverse.dropWhile Char.isWhitespace).reverse)

/-- Python str.lower on the ASCII range this program compares against. -/
def pyLower (s : String) : String := String.mk (s.data.map Char.toLower)

/-- Python str.startswith. -/
def pyStartsWith (s pat : String) : Bool := pat.data.isPrefixOf s.data

/-- Does pat occur as a contiguous run inside l (helper for Python substring tests)? -/
def occursAux (pat : List Char) : List Char → Bool
  | [] => pat.isEmpty
  | c :: cs => pat.isPrefixOf (c :: cs) || occursAux pat cs

/-- Python substring containment, `pat in s`. -/
def strContains (s pat : String) : Bool := occursAux pat.data s.data

/-- Helper for splitting on newline characters, accumulating the current line. -/
def splitNlAux (cur : List Char) : List Char → List String
  | [] => [String.mk cur.reverse]
  | c :: cs =>
      if c = '\n' then String.mk cur.reverse :: splitNlAux [] cs
      else splitNlAux (c :: cur) cs

/-- Python s.split of a string on the newline separator, keeping empty pieces. -/
def splitNl (s : String) : List String := splitNlAux [] s.data

/-- Helper for whitespace tokenisation, accumulating the current token. -/
def pySplitAux (cur : List Char) : List Char → List String
  | [] => if cur.isEmpty then [] else [String.mk cur.reverse]
  | c :: cs =>
      if c.isWhitespace then
        if cur.isEmpty then pySplitAux [] cs
        else String.mk cur.reverse :: pySplitAux [] cs
      else pySplitAux (c :: cur) cs

/-- Python s.split with no argument: split on whitespace runs, dropping empty tokens. -/
def pySplit (s : String) : List String := pySplitAux [] s.data

/-- Python " ".join. -/
def joinSpace : List String → String
  | [] => ""
  | [s] => s
  | s :: rest => s ++ " " ++ joinSpace rest

/-- Value of a nonempty all-digit character run, none otherwise. -/
def decDigits (l : List Char) : Option Nat :=
  if l.isEmpty then none
  else if l.all Char.isDigit then
    some (l.foldl (fun a c => a * 10 + (c.toNat - 48)) 0)
  else none

/-- Python int(s) on the inputs this program reads: optional sign then decimal digits,
surrounding whitespace ignored; none models the ValueError path. -/
def pyParseInt (s : String) : Option Int :=
  match (pyStrip s).data with
  | [] => none
  | c :: rest =>
      if c = '-' then (decDigits rest).map (fun n => -(n : Int))
      else if c = '+' then (decDigits rest).map (fun n => (n : Int))
      else (decDigits (c :: rest)).map (fun n => (n : Int))

/-- Result of run_pac_command in capture mode (lines 66-84): exit status and captured
output text. -/
structure PacResult where
  returncode : Int
  stdout : String
  stderr : String
  deriving DecidableEq, Repr

/-- A parsed solution record (lines 208-211): first token of the line and the full
original line kept for later column re-extraction. -/
structure SolutionRec where
  unique_name : String
  raw_line : String
  deriving DecidableEq, Repr

/-- Body of the list_solutions parse loop for one line (lines 198-211): skip lines with
a dashed run, the Unique Name header, or only whitespace; tokenise the rest; drop lines
whose first token starts with a dash; otherwise record first token plus raw line. -/
def parseSolutionLine (line : String) : Option SolutionRec :=
  if strContains line "---" = true ∨ strContains line "Unique Name" = true ∨ pyStrip line = ""
  then none
  else
    match pySplit line with
    | [] => none
    | p :: _ =>
        if pyStartsWith p "-" = true then none
        else some { unique_name := p, raw_line := line }

/-- The record collection computed by list_solutions (lines 186-214) from the pac
invocation result: empty on non-zero exit or empty stdout, else the per-line parse of
the stripped stdout split into lines. -/
def listSolutionsParse (r : PacResult) : List SolutionRec :=
  if r.returncode = 0 then
    if r.stdout = "" then []
    else (splitNl (pyStrip r.stdout)).filterMap parseSolutionLine
  else []

/-- Friendly-name truncation at render time (lines 243-244). -/
def truncateFriendly (s : String) : String :=
  if 24 < s.data.length then String.mk (s.data.take 21) ++ "..." else s

/-- The three display columns re-extracted from a raw line (lines 226-244). -/
structure RenderCols where
  friendly_name : String
  version : String
  managed : String
  deriving DecidableEq, Repr

/-- Column re-extraction from raw_line at render time (lines 226-244): with at least
three tokens, a literal True or False last token is the managed flag and the
second-to-last token the version, otherwise the last token is the version; middle
tokens joined with spaces form the friendly name, which is then truncated. -/
def renderColumns (rawLine : String) : RenderCols :=
  let parts := pySplit rawLine
  if 3 ≤ parts.length then
    let version :=
      if parts.getLastD "" = "True" ∨ parts.getLastD "" = "False"
      then parts.getD (parts.length - 2) "" else parts.getLastD ""
    let managed :=
      if parts.getLastD "" = "True" ∨ parts.getLastD "" = "False"
      then parts.getLastD "" else ""
    let fparts :=
      if managed ≠ "" then ((parts.drop 1).dropLast).dropLast
      else (parts.drop 1).dropLast
    { friendly_name := truncateFriendly (joinSpace fparts)
      version := version
      managed := managed }
  else { friendly_name := truncateFriendly "", version := "", managed := "" }

/-- Selection validation shared by main (lines 348-360) and export_another_solution
(lines 395-406): integer parse with range check against the listing, literal fallback
when the parse fails; none models the error path (exit or return). -/
def resolveSelection (selection : String) (solutions : List SolutionRec) : Option String :=
  match pyParseInt selection with
  | some idx =>
      if idx < 1 ∨ (solutions.length : Int) < idx then none
      else (solutions.get? (idx - 1).toNat).map SolutionRec.unique_name
  | none => if selection = "" then none else some selection

/-- Outcome classification of export_solution (lines 276-313). -/
inductive ExportReport where
  | success
  | failedToRun
  | fileNotFound
  | exportFailed
  deriving DecidableEq, Repr

/-- export_solution's reported outcome (lines 290-313), given whether the pac
invocation returned (none models the raised-exception path where result stays None)
and whether the target file exists afterwards. fileNotFound is the branch printing
the command-completed-but-file-not-found diagnostic (lines 302-307). -/
def exportSolutionReport (invocation : Option PacResult) (fileOnDisk : Bool) : ExportReport :=
  match invocation with
  | none => ExportReport.failedToRun
  | some r =>
      if r.returncode = 0 then
        if fileOnDisk then ExportReport.success else ExportReport.fileNotFound
      else ExportReport.exportFailed

/-- The success flag passed to spinner.stop (line 287). -/
def exportSpinnerSuccess (invocation : Option PacResult) (fileOnDisk : Bool) : Bool :=
  match invocation with
  | none => false
  | some r => decide (r.returncode = 0) && fileOnDisk

/-- A wall-clock timestamp with second resolution: the datetime.now() components that
line 262 formats. -/
structure Timestamp where
  year : Nat
  month : Nat
  day : Nat
  hour : Nat
  minute : Nat
  second : Nat
  deriving DecidableEq, Repr

/-- Two-digit zero-padded decimal field, as strftime renders in-range month, day,
hour, minute and second values. -/
def pad2 (n : Nat) : List Char := [digitChar (n / 10 % 10), digitChar (n % 10)]

/-- Four-digit decimal field, as strftime renders years 1000 to 9999. -/
def pad4 (n : Nat) : List Char :=
  [digitChar (n / 1000 % 10), digitChar (n / 100 % 10), digitChar (n / 10 % 10),
   digitChar (n % 10)]

/-- The date part of strftime("%Y%m%d_%H%M%S") (line 262). -/
def dateStr (t : Timestamp) : String := String.mk (pad4 t.year ++ pad2 t.month ++ pad2 t.day)

/-- The time-of-day part of strftime("%Y%m%d_%H%M%S") (line 262). -/
def timeStr (t : Timestamp) : String :=
  String.mk (pad2 t.hour ++ pad2 t.minute ++ pad2 t.second)

/-- The full timestamp string of line 262. -/
def formatTimestamp (t : Timestamp) : String := dateStr t ++ "_" ++ timeStr t

/-- The computed filename of line 263. -/
def exportFilename (name : String) (t : Timestamp) : String :=
  name ++ "_" ++ formatTimestamp t ++ ".zip"

/-- full_path of line 264: the filename joined under the output directory. -/
def exportTargetPath (outputDir name : String) (t : Timestamp) : String :=
  outputDir ++ "/" ++ exportFilename name t

/-- The externally visible effects of export_solution before its result handling. -/
inductive ExportEffect where
  | mkdirRecursiveExistOk (dir : String)
  | runPacExport (name : String) (path : String)
  deriving DecidableEq, Repr

/-- export_solution first ensures output_dir exists (mkdir with parents and exist_ok
set, line 259) and then invokes pac solution export against the computed target path
(lines 278-284), in that order. -/
def exportSolutionEffects (name outputDir : String) (t : Timestamp) : List ExportEffect :=
  [ExportEffect.mkdirRecursiveExistOk outputDir,
   ExportEffect.runPacExport name (exportTargetPath outputDir name t)]

/-- Does one auth list line signal an active profile (loop body, lines 137-143)? -/
def lineSignalsActive (line : String) : Bool :=
  if strContains line "---" = true ∨ strContains line "Index" = true ∨ pyStrip line = ""
  then false
  else strContains (pyLower line) "http" && strContains (pyLower line) "crm"

/-- The outer containment gate of ensure_authenticated (line 134), applied to the
lowercased whole output. -/
def authOutputGate (output : String) : Bool :=
  strContains output "active" || (strContains output "http" && !strContains output "universal")

/-- has_active as computed by ensure_authenticated (lines 130-143). -/
def ensureAuthHasActive (r : PacResult) : Bool :=
  if r.returncode = 0 ∧ r.stdout ≠ "" then
    if authOutputGate (pyLower r.stdout) = true then
      (splitNl (pyStrip r.stdout)).any lineSignalsActive
    else false
  else false

/-- Environment URL handling of ensure_authenticated (lines 158-166): the stripped
entry must be nonempty; an entry without the http scheme marker gets https:// put in
front, one with it passes unchanged; none models the failing empty entry. -/
def normalizeEnvUrl (envUrl : String) : Option String :=
  if envUrl = "" then none
  else if pyStartsWith envUrl "http" = true then some envUrl
  else some ("https://" ++ envUrl)

/-- Python membership test of the stripped, lowercased yes answer (lines 371-372 and
416-417). -/
def yesAnswer (s : String) : Bool :=
  decide (pyLower (pyStrip s) = "y") || decide (pyLower (pyStrip s) = "yes")

/-- The external inputs consumed by one call of export_another_solution. -/
structure AnotherStep where
  listing : PacResult
  selection : String
  invocation : Option PacResult
  fileOnDisk : Bool
  anotherAnswer : String
  deriving DecidableEq, Repr

/-- export_another_solution (lines 378-418) on a script of step inputs: some code when
sys.exit(code) is reached, none when the call returns. Every error branch of this
function returns instead of exiting; only a nested recursion can exit. -/
def exportAnotherRun : List AnotherStep → Option Nat
  | [] => none
  | step :: rest =>
      let sols := listSolutionsParse step.listing
      if sols.isEmpty then none
      else
        let sel := pyStrip step.selection
        if pyLower sel = "q" then none
        else
          match resolveSelection sel sols with
          | none => none
          | some _ =>
              if exportSolutionReport step.invocation step.fileOnDisk = ExportReport.success
              then if yesAnswer step.anotherAnswer then exportAnotherRun rest else none
              else none

/-- The external inputs consumed by one run of main (lines 316-375). -/
structure MainScript where
  pacInstalled : Bool
  authOk : Bool
  listing : PacResult
  selection : String
  invocation : Option PacResult
  fileOnDisk : Bool
  anotherAnswer : String
  anotherSteps : List AnotherStep
  deriving DecidableEq, Repr

/-- main (lines 316-375): some code when sys.exit(code) runs, none when main returns
normally. An export failure in main exits 1 (line 375); after a successful export the
optional export_another_solution call decides the rest. -/
def mainRun (ms : MainScript) : Option Nat :=
  if ms.pacInstalled = false then some 1
  else if ms.authOk = false then some 1
  else
    let sols := listSolutionsParse ms.listing
    if sols.isEmpty then some 1
    else
      let sel := pyStrip ms.selection
      if pyLower sel = "q" then some 0
      else
        match resolveSelection sel sols with
        | none => some 1
        | some _ =>
            if exportSolutionReport ms.invocation ms.fileOnDisk = ExportReport.success
            then if yesAnswer ms.anotherAnswer then exportAnotherRun ms.anotherSteps else none
            else some 1

/-- Top-level process exit code of a run: a main that returns without calling sys.exit
ends the interpreter with code 0. -/
def programExit (ms : MainScript) : Nat := (mainRun ms).getD 0

/-- All characters of the string are decimal digits. -/
def allDigits (s : String) : Bool := s.data.all Char.isDigit

/-- A concrete run in which the first export succeeds and the export inside the
export-another flow fails with a non-zero exit status. -/
def c5ExampleScript : MainScript :=
  { pacInstalled := true
    authOk := true
    listing := ⟨0, "SolA FriendlyA 1.0.0.0 False", ""⟩
    selection := "1"
    invocation := some ⟨0, "", ""⟩
    fileOnDisk := true
    anotherAnswer := "y"
    anotherSteps := [{ listing := ⟨0, "SolA FriendlyA 1.0.0.0 False", ""⟩
                       selection := "1"
                       invocation := some ⟨1, "", "error"⟩
                       fileOnDisk := false
                       anotherAnswer := "n" }] }

/-- A concrete run in which the initial export driven by main fails. -/
def c5MainFailScript : MainScript :=
  { pacInstalled := true
    authOk := true
    listing := ⟨0, "SolA FriendlyA 1.0.0.0 False", ""⟩
    selection := "1"
    invocation := some ⟨1, "", "boom"⟩
    fileOnDisk := false
    anotherAnswer := "n"
    anotherSteps := [] }

theorem strData_append (a b : String) : (a ++ b).data = a.data ++ b.data := by
  cases a
  cases b
  rfl

theorem digitChar_isDigit (n : Nat) (h : n < 10) : (digitChar n).isDigit = true := by
  interval_cases n <;> decide

theorem digitChar_mod_isDigit (k : Nat) : (digitChar (k % 10)).isDigit = true :=
  digitChar_isDigit _ (Nat.mod_lt _ (by norm_num))

/-- C1: export_solution reports success exactly when the pac invocation returned
normally with exit status zero and the target file exists afterwards; in particular a
zero exit status with a missing file is reported through the fileNotFound diagnostic
branch, never as success. -/
theorem c1_export_success_iff (invocation : Option PacResult) (fileOnDisk : Bool) :
    (exportSolutionReport invocation fileOnDisk = ExportReport.success ↔
      (∃ r, invocation = some r ∧ r.returncode = 0) ∧ fileOnDisk = true)
    ∧ (∀ r, invocation = some r → r.returncode = 0 → fileOnDisk = false →
        exportSolutionReport invocation fileOnDisk = ExportReport.fileNotFound) := by
  constructor
  · constructor
    · intro h
      cases invocation with
      | none => simp [exportSolutionReport] at h
      | some r =>
          by_cases h0 : r.returncode = 0
          · cases fileOnDisk with
            | false => simp [exportSolutionReport, h0] at h
            | true => exact ⟨⟨r, rfl, h0⟩, rfl⟩
          · simp [exportSolutionReport, h0] at h
    · rintro ⟨⟨r, rfl, h0⟩, hf⟩
      subst hf
      simp [exportSolutionReport, h0]
  · rintro r rfl h0 hf
    subst hf
    simp [exportSolutionReport, h0]

/-- C1 witness: a returned invocation with exit status zero and no file on disk is
reported through the fileNotFound branch. -/
theorem c1_export_success_iff_witness :
    exportSolutionReport (some ⟨0, "", ""⟩) false = ExportReport.fileNotFound :=
  (c1_export_success_iff (some ⟨0, "", ""⟩) false).2 ⟨0, "", ""⟩ rfl rfl rfl

/-- C2: integer inputs inside the 1-based range resolve to that record's unique name,
integer inputs outside the range fail with no fallback, non-integer nonempty inputs
resolve to themselves, and a non-integer empty input fails. -/
theorem c2_selection_resolution (input : String) (sols : List SolutionRec) :
    (∀ i : Int, pyParseInt input = some i →
      ((1 ≤ i ∧ i ≤ (sols.length : Int)) →
        resolveSelection input sols = (sols.get? (i - 1).toNat).map SolutionRec.unique_name
          ∧ (resolveSelection input sols).isSome = true)
      ∧ ((i < 1 ∨ (sols.length : Int) < i) → resolveSelection input sols = none))
    ∧ (pyParseInt input = none → input ≠ "" → resolveSelection input sols = some input)
    ∧ (pyParseInt input = none → input = "" → resolveSelection input sols = none) := by
  refine ⟨fun i hi => ⟨fun hr => ?_, fun hr => ?_⟩, fun hp hne => ?_, fun hp he => ?_⟩
  · have hcond : ¬(i < 1 ∨ (sols.length : Int) < i) := by omega
    have he : resolveSelection input sols
        = (sols.get? (i - 1).toNat).map SolutionRec.unique_name := by
      unfold resolveSelection
      rw [hi]
      exact if_neg hcond
    refine ⟨he, ?_⟩
    rw [he]
    have hlt : (i - 1).toNat < sols.length := by omega
    rw [List.get?_eq_get hlt]
    rfl
  · unfold resolveSelection
    rw [hi]
    exact if_pos hr
  · unfold resolveSelection
    rw [hp]
    exact if_neg hne
  · unfold resolveSelection
    rw [hp]
    exact if_pos he

/-- C2 witness: with three records, input "2" resolves to the second unique name. -/
theorem c2_selection_resolution_witness :
    resolveSelection "2" [⟨"A", "A"⟩, ⟨"B", "B"⟩, ⟨"C", "C"⟩] = some "B" := by
  have h :=
    (((c2_selection_resolution "2" [⟨"A", "A"⟩, ⟨"B", "B"⟩, ⟨"C", "C"⟩]).1 2
      (by decide)).1 (by constructor <;> decide)).1
  exact h.trans (by decide)

/-- C3 as stated is false: the two-token line "Foo 1.0" has a last token that is not a
managed literal, so the claim requires the computed version to be that last token
"1.0", but renderColumns computes the empty version (the code only extracts columns
from lines with at least three tokens). -/
theorem c3_counterexample :
    (renderColumns "Foo 1.0").version = ""
    ∧ (pySplit "Foo 1.0").getLastD "" = "1.0"
    ∧ ¬((pySplit "Foo 1.0").getLastD "" = "True" ∨ (pySplit "Foo 1.0").getLastD "" = "False")
    ∧ (renderColumns "Foo 1.0").version ≠ (pySplit "Foo 1.0").getLastD "" := by
  refine ⟨by decide, by decide, by decide, by decide⟩

/-- C3 amended: for listing lines with at least three whitespace tokens, a literal True
or False last token makes the version the second-to-last token and the managed flag the
last token, and any other last token is itself the version with no managed flag; lines
with fewer than three tokens get an empty version and no managed flag. -/
theorem c3_version_managed (line : String) :
    (3 ≤ (pySplit line).length →
      (((pySplit line).getLastD "" = "True" ∨ (pySplit line).getLastD "" = "False") →
        (renderColumns line).version = (pySplit line).getD ((pySplit line).length - 2) ""
          ∧ (renderColumns line).managed = (pySplit line).getLastD "")
      ∧ (¬((pySplit line).getLastD "" = "True" ∨ (pySplit line).getLastD "" = "False") →
        (renderColumns line).version = (pySplit line).getLastD ""
          ∧ (renderColumns line).managed = ""))
    ∧ ((pySplit line).length < 3 →
        (renderColumns line).version = "" ∧ (renderColumns line).managed = "") := by
  constructor
  · intro h3
    constructor
    · intro hb
      unfold renderColumns
      rw [if_pos h3]
      simp only [if_pos hb]
      exact ⟨trivial, trivial⟩
    · intro hb
      unfold renderColumns
      rw [if_pos h3]
      simp only [if_neg hb]
      exact ⟨trivial, trivial⟩
  · intro hlt
    unfold renderColumns
    rw [if_neg (by omega)]
    exact ⟨rfl, rfl⟩

/-- C3 witness: a four-token line with managed literal True gets version from the
second-to-last token and managed from the last. -/
theorem c3_version_managed_witness :
    (renderColumns "A B 1.0 True").version = "1.0"
      ∧ (renderColumns "A B 1.0 True").managed = "True" := by
  have h := ((c3_version_managed "A B 1.0 True").1 (by decide)).1 (by decide)
  exact ⟨h.1.trans (by decide), h.2.trans (by decide)⟩

/-- C4 as stated is false: the output consisting of the single line "Index" contains
the header token Index on its only line, yet list_solutions parses a record from it,
because the solution-listing filter only drops dashed, Unique Name and blank lines. -/
theorem c4_counterexample :
    strContains "Index" "Index" = true
    ∧ listSolutionsParse ⟨0, "Index", ""⟩ = [⟨"Index", "Index"⟩] := by
  refine ⟨by decide, by decide⟩

/-- C4 amended: if every line of the listing output is blank, contains a dashed
separator run, or contains the header token Unique Name, the parsed record collection
is empty (the Index token plays no part in the solution-listing filter). -/
theorem c4_header_only_empty (r : PacResult)
    (h : ∀ l ∈ splitNl (pyStrip r.stdout),
      pyStrip l = "" ∨ strContains l "---" = true ∨ strContains l "Unique Name" = true) :
    listSolutionsParse r = [] := by
  unfold listSolutionsParse
  split
  · split
    · rfl
    · refine List.filterMap_eq_nil_iff.mpr fun l hl => ?_
      rcases h l hl with h1 | h2 | h3
      · unfold parseSolutionLine
        rw [if_pos (Or.inr (Or.inr h1))]
      · unfold parseSolutionLine
        rw [if_pos (Or.inl h2)]
      · unfold parseSolutionLine
        rw [if_pos (Or.inr (Or.inl h3))]
  · rfl

/-- C4 witness: a header line, a separator line and a blank line parse to nothing. -/
theorem c4_header_only_empty_witness :
    listSolutionsParse ⟨0, "Unique Name   Friendly\n----\n   ", ""⟩ = [] :=
  c4_header_only_empty ⟨0, "Unique Name   Friendly\n----\n   ", ""⟩ (by decide)

/-- C7: an empty environment URL fails the flow, an entry without the http scheme
marker is passed on with https:// put in front, and one with the marker is passed on
unchanged. -/
theorem c7_url_normalization (envUrl : String) :
    (envUrl = "" → normalizeEnvUrl envUrl = none)
    ∧ (envUrl ≠ "" → pyStartsWith envUrl "http" = false →
        normalizeEnvUrl envUrl = some ("https://" ++ envUrl))
    ∧ (envUrl ≠ "" → pyStartsWith envUrl "http" = true →
        normalizeEnvUrl envUrl = some envUrl) := by
  refine ⟨fun h => ?_, fun h hs => ?_, fun h hs => ?_⟩
  · unfold normalizeEnvUrl
    rw [if_pos h]
  · unfold normalizeEnvUrl
    rw [if_neg h, if_neg (by simp [hs])]
  · unfold normalizeEnvUrl
    rw [if_neg h, if_pos hs]

/-- C7 witness: a bare host entry is normalized with the https:// scheme. -/
theorem c7_url_normalization_witness :
    normalizeEnvUrl "org.crm.dynamics.com" = some ("https://" ++ "org.crm.dynamics.com") :=
  (c7_url_normalization "org.crm.dynamics.com").2.1 (by decide) (by decide)

/-- C8: a friendly name longer than 24 characters is truncated to its first 21
characters followed by the three-character ellipsis marker, 24 characters in all; a
shorter one is displayed unchanged. -/
theorem c8_friendly_truncation (s : String) :
    (24 < s.data.length →
      truncateFriendly s = String.mk (s.data.take 21) ++ "..."
        ∧ (truncateFriendly s).data.length = 24)
    ∧ (s.data.length ≤ 24 → truncateFriendly s = s) := by
  constructor
  · intro h
    have he : truncateFriendly s = String.mk (s.data.take 21) ++ "..." := by
      unfold truncateFriendly
      exact if_pos h
    refine ⟨he, ?_⟩
    rw [he, strData_append]
    have hd : (("..." : String)).data.length = 3 := by decide
    rw [List.length_append, List.length_take, hd]
    omega
  · intro h
    unfold truncateFriendly
    exact if_neg (by omega)

/-- C8 witness: a 26-character name truncates to exactly 24 characters ending in the
ellipsis marker. -/
theorem c8_friendly_truncation_witness :
    truncateFriendly "abcdefghijklmnopqrstuvwxyz" = "abcdefghijklmnopqrstu..."
      ∧ (truncateFriendly "abcdefghijklmnopqrstuvwxyz").data.length = 24 := by
  have h := (c8_friendly_truncation "abcdefghijklmnopqrstuvwxyz").1 (by decide)
  exact ⟨h.1.trans (by decide), h.2⟩

/-- C10: a listing line that survives the documented filters but whose first
whitespace token begins with a dash is silently dropped by the parse. -/
theorem c10_dash_token_dropped (line tok : String) (toks : List String)
    (h1 : strContains line "---" = false) (h2 : strContains line "Unique Name" = false)
    (h3 : pyStrip line ≠ "")
    (h4 : pySplit line = tok :: toks) (h5 : pyStartsWith tok "-" = true) :
    parseSolutionLine line = none := by
  unfold parseSolutionLine
  rw [if_neg (by simp [h1, h2, h3])]
  rw [h4]
  simp only [if_pos h5]

/-- C10 witness: the line "-foo bar" survives the filters yet parses to nothing. -/
theorem c10_dash_token_dropped_witness : parseSolutionLine "-foo bar" = none :=
  c10_dash_token_dropped "-foo bar" "-foo" ["bar"] (by decide) (by decide) (by decide)
    (by decide) (by decide)

theorem underscoreData : ("_" : String).data = ['_'] := rfl

/-- C6: for every solution name and call time (with the calendar fields in the ranges
datetime delivers and a four-digit year), the computed filename is the name, an
underscore, eight date digits, an underscore, six time digits and the .zip ending,
inside the output directory; and export_solution performs the recursive, existing-ok
directory creation before the export invocation. -/
theorem c6_filename_shape (name outputDir : String) (t : Timestamp)
    (hy1 : 1000 ≤ t.year) (hy2 : t.year ≤ 9999)
    (hmo1 : 1 ≤ t.month) (hmo2 : t.month ≤ 12)
    (hd1 : 1 ≤ t.day) (hd2 : t.day ≤ 31)
    (hh : t.hour ≤ 23) (hmi : t.minute ≤ 59) (hs : t.second ≤ 60) :
    ((dateStr t).data.length = 8 ∧ allDigits (dateStr t) = true
      ∧ (timeStr t).data.length = 6 ∧ allDigits (timeStr t) = true
      ∧ (exportFilename name t).data
          = name.data ++ '_' :: (dateStr t).data ++ '_' :: (timeStr t).data ++ ".zip".data)
    ∧ exportSolutionEffects name outputDir t
        = [ExportEffect.mkdirRecursiveExistOk outputDir,
           ExportEffect.runPacExport name (exportTargetPath outputDir name t)] := by
  refine ⟨⟨rfl, ?_, rfl, ?_, ?_⟩, rfl⟩
  · simp [allDigits, dateStr, pad4, pad2, digitChar_mod_isDigit]
  · simp [allDigits, timeStr, pad2, digitChar_mod_isDigit]
  · simp [exportFilename, formatTimestamp, strData_append, underscoreData]

/-- C6 witness at a concrete timestamp: the filename has the documented shape. -/
theorem c6_filename_shape_witness :
    (exportFilename "Foo" ⟨2026, 10, 12, 9, 30, 5⟩).data = "Foo_20261012_093005.zip".data := by
  have h := (c6_filename_shape "Foo" "./exports" ⟨2026, 10, 12, 9, 30, 5⟩
    (by norm_num) (by norm_num) (by norm_num) (by norm_num) (by norm_num) (by norm_num)
    (by norm_num) (by norm_num) (by norm_num)).1.2.2.2.2
  rw [h]
  decide

/-- C9 as stated is false: in the output whose only line is "universal HTTP crm", that
line survives the skips and contains http and crm case-insensitively, yet detection
reports false, because the whole-output gate rejects outputs containing universal and
lacking active. -/
theorem c9_counterexample :
    (⟨0, "universal HTTP crm", ""⟩ : PacResult).returncode = 0
    ∧ lineSignalsActive "universal HTTP crm" = true
    ∧ splitNl (pyStrip "universal HTTP crm") = ["universal HTTP crm"]
    ∧ ensureAuthHasActive ⟨0, "universal HTTP crm", ""⟩ = false := by
  refine ⟨rfl, by decide, by decide, by decide⟩

/-- C9 amended: under a zero exit status, an active profile is detected iff stdout is
nonempty, the lowercased whole output contains active or contains http while not
containing universal, and some line that is not blank, has no dashed run and no Index
token contains both http and crm case-insensitively. -/
theorem c9_active_detection (r : PacResult) (h : r.returncode = 0) :
    ensureAuthHasActive r = true ↔
      r.stdout ≠ "" ∧ authOutputGate (pyLower r.stdout) = true
        ∧ ∃ l ∈ splitNl (pyStrip r.stdout), lineSignalsActive l = true := by
  unfold ensureAuthHasActive
  by_cases hs : r.stdout = ""
  · rw [if_neg (by simp [hs])]
    simp [hs]
  · rw [if_pos ⟨h, hs⟩]
    by_cases hg : authOutputGate (pyLower r.stdout) = true
    · rw [if_pos hg]
      simp [hs, hg, List.any_eq_true]
    · rw [if_neg hg]
      simp [hs, hg]

/-- C9 witness: an output whose only line is "http crm" is detected as an active
profile. -/
theorem c9_active_detection_witness :
    ensureAuthHasActive ⟨0, "http crm", ""⟩ = true := by
  rw [c9_active_detection ⟨0, "http crm", ""⟩ rfl]
  exact ⟨by decide, by decide, "http crm", by decide, by decide⟩

/-- C5 as stated is false: in the concrete run c5ExampleScript the export inside the
export-another flow fails with a non-zero exit status, yet the program terminates with
exit code 0, because export_another_solution returns instead of exiting on failure. -/
theorem c5_counterexample :
    exportSolutionReport (some ⟨1, "", "error"⟩) false ≠ ExportReport.success
    ∧ (c5ExampleScript.anotherSteps.map fun st =>
        exportSolutionReport st.invocation st.fileOnDisk) = [ExportReport.exportFailed]
    ∧ programExit c5ExampleScript = 0 := by
  refine ⟨by decide, by decide, by decide⟩

/-- C5 amended: an export failure in the initial export driven by main makes the
program exit with code 1, while an export failure in the export-another flow makes
that call return without reaching any exit. -/
theorem c5_exit_codes (ms : MainScript) (step : AnotherStep) (rest : List AnotherStep) :
    (ms.pacInstalled = true → ms.authOk = true →
      (listSolutionsParse ms.listing).isEmpty = false →
      pyLower (pyStrip ms.selection) ≠ "q" →
      (resolveSelection (pyStrip ms.selection) (listSolutionsParse ms.listing)).isSome = true →
      exportSolutionReport ms.invocation ms.fileOnDisk ≠ ExportReport.success →
      mainRun ms = some 1 ∧ programExit ms = 1)
    ∧ ((listSolutionsParse step.listing).isEmpty = false →
      pyLower (pyStrip step.selection) ≠ "q" →
      (resolveSelection (pyStrip step.selection) (listSolutionsParse step.listing)).isSome = true →
      exportSolutionReport step.invocation step.fileOnDisk ≠ ExportReport.success →
      exportAnotherRun (step :: rest) = none) := by
  constructor
  · intro hpac hauth hne hq hsome hfail
    obtain ⟨nm, hnm⟩ := Option.isSome_iff_exists.mp hsome
    have hm : mainRun ms = some 1 := by
      simp only [mainRun]
      rw [if_neg (by simp [hpac]), if_neg (by simp [hauth]), if_neg (by simp [hne]),
        if_neg hq, hnm]
      simp only
      rw [if_neg hfail]
    exact ⟨hm, by unfold programExit; rw [hm]; rfl⟩
  · intro hne hq hsome hfail
    obtain ⟨nm, hnm⟩ := Option.isSome_iff_exists.mp hsome
    simp only [exportAnotherRun]
    rw [if_neg (by simp [hne]), if_neg hq, hnm]
    simp only
    rw [if_neg hfail]

/-- C5 witness: the concrete failing main run exits with code 1. -/
theorem c5_exit_codes_witness :
    mainRun c5MainFailScript = some 1 ∧ programExit c5MainFailScript = 1 :=
  (c5_exit_codes c5MainFailScript ⟨⟨0, "x", ""⟩, "", none, false, ""⟩ []).1 rfl rfl
    (by decide) (by decide) (by decide) (by decide)

end SolutionExporter
